import Mathlib

/-!
Verification development for the `CodingChallenge` repository (three Python
scripts: Q1 `shape_analogy_generator.py`, Q2 `educational_content_fetcher.py`,
Q3 `educational_animation_generator.py`).

The Python code is shallowly embedded: pure computations become Lean
functions, the on-disk MD5-keyed cache directory becomes an association list
of (file name, JSON envelope) threaded explicitly, machine integers become
`Int` (Python ints are unbounded, so no wrap-around is modelled), Python
exceptions become `Except`, and external collaborators (the `hashlib.md5`
hex digest, HTTP responses, `matplotlib` availability, the file system's
answers) become explicit parameters of the embedded functions, exactly where
the Python code consults them.

Python truthiness of optional strings (`None` and `""` are falsy) is
modelled by `optTruthy`.
-/

/-- Python truthiness of an `Optional[str]`: `None` and the empty string are
falsy, every other string is truthy. -/
def optTruthy : Option String → Bool
  | some s => s ≠ ""
  | none => false

/-!
## The file cache shared by Q2 and Q3

Both `EducationalContentFetcher` (Q2) and `EducationalAnimationGenerator`
(Q3) carry a copy-pasted pair `is_cached` / `cache_content`-or-`cache_animation`
differing only in the expiry constant (24 hours vs 7 days).  The common body
is embedded once (`cacheGet` / `cachePut`) and instantiated per script.

The cache directory holds one JSON file per key, each file a
`{cached_at, data}` envelope; it is modelled as an association list from the
file name (the cache key) to the envelope.  `time.time()` values are
modelled as `Int` seconds.
-/

/-- The `{'cached_at': ..., 'data': ...}` envelope each cache file holds. -/
structure CacheEntry (α : Type) where
  cached_at : Int
  data : α
  deriving DecidableEq

/-- The cache directory: one file per key. -/
abbrev CacheDir (α : Type) := List (String × CacheEntry α)

/-- File lookup in the cache directory (`cache_file.exists()` + `json.load`). -/
def lookupFile {α : Type} : CacheDir α → String → Option (CacheEntry α)
  | [], _ => none
  | (k, e) :: rest, key => if k == key then some e else lookupFile rest key

/-- `cache_file.unlink()`: remove the file for `key` from the directory. -/
def removeFile {α : Type} (dir : CacheDir α) (key : String) : CacheDir α :=
  dir.filter (fun p => p.1 != key)

/-- `open(cache_file, 'w')` + `json.dump`: (over)write the file for `key`. -/
def writeFile {α : Type} (dir : CacheDir α) (key : String) (e : CacheEntry α) :
    CacheDir α :=
  (key, e) :: removeFile dir key

/-- Body of `is_cached` (Q2 lines 142-164, Q3 lines 268-290): with caching
disabled or no file present answer `None`; an expired file is deleted and
treated as absent; otherwise the stored `data` is returned unchanged.
Returns the answer together with the resulting directory. -/
def cacheGet {α : Type} (expiry : Int) (cache_enabled : Bool) (now : Int)
    (dir : CacheDir α) (key : String) : Option α × CacheDir α :=
  if !cache_enabled then (none, dir)
  else
    match lookupFile dir key with
    | none => (none, dir)
    | some e =>
      if now - e.cached_at > expiry then (none, removeFile dir key)
      else (some e.data, dir)

/-- Body of `cache_content` (Q2 lines 166-181) and `cache_animation`
(Q3 lines 292-307): with caching disabled do nothing; otherwise write the
`{cached_at: now, data: content}` envelope.  The whole write sits in a
`try/except` that logs and swallows any failure, so a failed write
(`writeOk = false`) leaves the directory unchanged and the function still
returns normally. -/
def cachePut {α : Type} (cache_enabled : Bool) (writeOk : Bool) (now : Int)
    (dir : CacheDir α) (key : String) (content : α) : CacheDir α :=
  if !cache_enabled then dir
  else if writeOk then writeFile dir key { cached_at := now, data := content }
  else dir

namespace Q1

/-- `ShapeAnalogyGenerator.calculate_diagonals` (Q1 lines 124-126):
`return n * (n - 3) // 2`.  Python `//` on ints is floor division, i.e.
`Int.fdiv`. -/
def calculate_diagonals (n : Int) : Int :=
  Int.fdiv (n * (n - 3)) 2

/-- `ShapeAnalogyGenerator.get_cache_key` (Q1 lines 184-186):
`hashlib.md5(prompt.encode()).hexdigest()`.  The external MD5 hex digest is
passed in as `md5hex`. -/
def get_cache_key (md5hex : String → String) (prompt : String) : String :=
  md5hex prompt

/-- A JSON object of the shape described by Q1's `schema` (lines 97-114): the
twelve declared properties, each either absent (`none`) or present with a
value of the declared JSON type.  Records with a wrongly typed field are not
representable; the code only ever constructs correctly typed entries, and
the claims under verification quantify over presence and over the
classification value. -/
structure Entry where
  id : Option String
  prompt : Option String
  model : Option String
  seed : Option Int
  created_at : Option String
  image_url : Option String
  complexity_level : Option String
  estimated_time_minutes : Option Int
  tricky_questions : Option (List String)
  shape_a : Option String
  shape_b : Option String
  relationship : Option String
  deriving DecidableEq

/-- The `enum` of the `complexity_level` property in Q1's `schema`
(line 106). -/
def complexityEnum : List String := ["beginner", "intermediate", "advanced"]

/-- The `required` list of Q1's `schema` (line 113): all nine fields named
there are present. -/
def requiredPresent (e : Entry) : Bool :=
  e.id.isSome && e.prompt.isSome && e.model.isSome && e.seed.isSome &&
  e.created_at.isSome && e.image_url.isSome && e.complexity_level.isSome &&
  e.estimated_time_minutes.isSome && e.tricky_questions.isSome

/-- The `enum` constraint of Q1's `schema`: when `complexity_level` is
present its value lies in `complexityEnum`. -/
def complexityOk (e : Entry) : Bool :=
  match e.complexity_level with
  | some c => complexityEnum.contains c
  | none => true

/-- `jsonschema.validate(instance=entry, schema=schema)` on an `Entry`
(all fields correctly typed by construction): it succeeds exactly when every
required field is present and the `complexity_level` enum constraint holds. -/
def validateEntry (e : Entry) : Bool :=
  requiredPresent e && complexityOk e

/-- The validation tail of `ShapeAnalogyGenerator.generate_analogy`
(Q1 lines 313-320): a candidate entry is returned on successful validation
and `None` is returned (the entry is discarded) on `ValidationError`. -/
def generate_analogy_validate (e : Entry) : Option Entry :=
  if validateEntry e then some e else none

/-- The collection loop of `ShapeAnalogyGenerator.generate_analogies`
(Q1 lines 322-336), applied to the candidate entries of a run: only
non-`None` results are appended, in order. -/
def generate_analogies (candidates : List Entry) : List Entry :=
  candidates.filterMap generate_analogy_validate

/-- `ShapeAnalogyGenerator.save_results` (Q1 lines 338-354): the list of
records persisted to `output/analogies.json` (an empty list persists
nothing). -/
def save_results (results : List Entry) : List Entry :=
  results

/-- Python exceptions relevant to Q1's image pipeline: the `OSError` family
raised by file operations such as `shutil.copy2`.  (A
`requests.exceptions.RequestException` is modelled as the `.error` case of
the per-attempt HTTP outcome, because Q1 catches it locally.) -/
inductive PyExc where
  | osError
  deriving DecidableEq

/-- `ShapeAnalogyGenerator.generate_image` (Q1 lines 199-243), with
`cache_image` (lines 193-197) inlined at its call site.  `cacheHit` is
whether `is_cached` found a file for the prompt's key (Q1 lines 188-191);
`responses` lists, per retry attempt, the outcome of `requests.post`
(`.error` a raised `RequestException`, `.ok status` a reply);
`cacheWriteOk` is whether the `shutil.copy2` inside `cache_image` succeeds.
The per-attempt `try` catches only `RequestException`, so an `OSError`
raised by `cache_image` propagates to the caller uncaught. -/
def generate_image (cacheHit : Bool) (responses : List (Except Unit Int))
    (cacheWriteOk : Bool) : Except PyExc Bool :=
  if cacheHit then .ok true
  else go responses
where
  go : List (Except Unit Int) → Except PyExc Bool
  | [] => .ok false
  | r :: rest =>
    match r with
    | .error _ => go rest
    | .ok status =>
      if status == 200 then
        if cacheWriteOk then .ok true else .error .osError
      else go rest

end Q1

namespace Q2

/-- `CACHE_EXPIRY = 24 * 60 * 60` (Q2 line 52). -/
def CACHE_EXPIRY : Int := 24 * 60 * 60

/-- The canonical string `f"{topic}_{content_type}"` that
`EducationalContentFetcher.get_cache_key` (Q2 lines 138-140) feeds to MD5. -/
def cache_key_string (topic content_type : String) : String :=
  topic ++ "_" ++ content_type

/-- `EducationalContentFetcher.get_cache_key` (Q2 lines 138-140):
`hashlib.md5(f"{topic}_{content_type}".encode()).hexdigest()`.  The external
MD5 hex digest is passed in as `md5hex`. -/
def get_cache_key (md5hex : String → String) (topic content_type : String) :
    String :=
  md5hex (cache_key_string topic content_type)

/-- `EducationalContentFetcher.is_cached` (Q2 lines 142-164). -/
def is_cached {α : Type} (cache_enabled : Bool) (now : Int) (dir : CacheDir α)
    (key : String) : Option α × CacheDir α :=
  cacheGet CACHE_EXPIRY cache_enabled now dir key

/-- `EducationalContentFetcher.cache_content` (Q2 lines 166-181). -/
def cache_content {α : Type} (cache_enabled : Bool) (writeOk : Bool) (now : Int)
    (dir : CacheDir α) (key : String) (content : α) : CacheDir α :=
  cachePut cache_enabled writeOk now dir key content

/-- One value of `EducationalContentFetcher.topic_mappings`
(Q2 lines 91-136). -/
structure TopicInfo where
  learning_objectives : List String
  difficulty_level : String
  related_topics : List String
  keywords : List String
  deriving DecidableEq

/-- Association-list lookup, modelling Python `dict.get`. -/
def lookupTable {α : Type} : List (String × α) → String → Option α
  | [], _ => none
  | (k, v) :: rest, key => if k == key then some v else lookupTable rest key

/-- `EducationalContentFetcher.topic_mappings` (Q2 lines 91-136). -/
def topic_mappings : List (String × TopicInfo) :=
  [ ("photosynthesis",
     { learning_objectives :=
         [ "Understand the process of converting light energy to chemical energy"
         , "Identify the key components: chlorophyll, sunlight, water, and carbon dioxide"
         , "Explain the role of photosynthesis in the carbon cycle"
         , "Describe the structure and function of chloroplasts" ]
     , difficulty_level := "high_school"
     , related_topics := ["Cell Biology", "Biochemistry", "Ecology", "Plant Science"]
     , keywords := ["photosynthesis", "chlorophyll", "chloroplast", "glucose", "oxygen"] })
  , ("solar_system",
     { learning_objectives :=
         [ "Identify the eight planets and their characteristics"
         , "Understand the structure and composition of the solar system"
         , "Explain planetary motion and gravitational forces"
         , "Describe the role of the sun as the central star" ]
     , difficulty_level := "middle_school"
     , related_topics := ["Astronomy", "Physics", "Space Science", "Planetary Science"]
     , keywords := ["solar system", "planets", "sun", "orbit", "gravity"] })
  , ("dna_structure",
     { learning_objectives :=
         [ "Understand the double helix structure of DNA"
         , "Identify the four nucleotide bases and their pairing rules"
         , "Explain how DNA stores genetic information"
         , "Describe the role of DNA in protein synthesis" ]
     , difficulty_level := "high_school"
     , related_topics := ["Genetics", "Molecular Biology", "Biochemistry", "Evolution"]
     , keywords := ["dna", "double helix", "nucleotide", "genetic code", "chromosome"] })
  , ("mitochondria",
     { learning_objectives :=
         [ "Understand cellular respiration process"
         , "Identify mitochondrial structure components"
         , "Explain ATP production mechanism"
         , "Describe the endosymbiotic theory of mitochondria" ]
     , difficulty_level := "high_school"
     , related_topics := ["Cell Biology", "Biochemistry", "Energy Production", "Evolution"]
     , keywords := ["mitochondria", "atp", "cellular respiration", "cristae", "matrix"] }) ]

/-- The key normalisation `topic.lower().replace(" ", "_")` used throughout
Q2. -/
def normalize_topic (topic : String) : String :=
  (topic.toLower).replace " " "_"

/-- The 4-tuple `(description, image_url, page_url, license)` that
`fetch_wikipedia_content` returns. -/
structure FetchedContent where
  description : String
  image_url : Option String
  page_url : String
  license : String
  deriving DecidableEq

/-- `EducationalContentFetcher._generate_fallback_content` (Q2 lines 337-354):
locally synthesized content used when Wikipedia fails.  Note the returned
`page_url` is a synthesized, nonempty `https://en.wikipedia.org/wiki/...`
string and the image is `None`. -/
def generate_fallback_content (topic : String) : FetchedContent :=
  let topic_lower := normalize_topic topic
  let description :=
    match lookupTable topic_mappings topic_lower with
    | some mapping =>
      "Educational content about " ++ topic ++ ". " ++
        mapping.learning_objectives.headD ""
    | none =>
      "Educational content about " ++ topic ++
        ". Learn about the key concepts, processes, and importance of " ++
        topic ++ " in scientific and educational contexts."
  { description := description
  , image_url := none
  , page_url := "https://en.wikipedia.org/wiki/" ++ topic.replace " " "_"
  , license := "CC BY-SA 4.0" }

/-- `EducationalContentFetcher._create_educational_diagram`
(Q2 lines 412-433): writes a plain-text placeholder and returns its path
`str(self.images_dir / f"{topic.replace(' ', '_')}_diagram.txt")`. -/
def create_educational_diagram (topic : String) : String :=
  "output/images/" ++ topic.replace " " "_" ++ "_diagram.txt"

/-- `EducationalContentFetcher.fetch_wikipedia_content` (Q2 lines 183-283).
`cached` is the `is_cached` answer for the topic's key; `http` summarizes
the Wikipedia API interaction: `.error` a raised request/HTTP exception,
`.ok none` no search result or a missing page, `.ok (some page)` a fetched
page (the cache write on success is settled separately via
`cache_content`).  Every failure branch degrades to
`_generate_fallback_content`. -/
def fetch_wikipedia_content (topic : String) (cached : Option FetchedContent)
    (http : Except Unit (Option FetchedContent)) : FetchedContent :=
  match cached with
  | some c => c
  | none =>
    match http with
    | .error _ => generate_fallback_content topic
    | .ok none => generate_fallback_content topic
    | .ok (some page) => page

/-- The `EducationalContent` dataclass (Q2 lines 54-70). -/
structure EducationalContent where
  id : String
  title : String
  description : String
  page_url : String
  image_url : String
  license : String
  attribution : String
  learning_objectives : List String
  difficulty_level : String
  related_topics : List String
  created_at : String
  source : String
  image_quality : String
  educational_value : Int
  deriving DecidableEq

/-- `EducationalContentFetcher.build_educational_metadata`
(Q2 lines 459-510).  `uuid` stands for `str(uuid.uuid4())` and `created_at`
for `datetime.now(timezone.utc).isoformat()`.  Note `source` is computed
from the truthiness of `page_url` alone and `attribution`/`image_quality`
from the truthiness of the incoming `image_url`. -/
def build_educational_metadata (topic description : String)
    (image_url : Option String) (page_url license_info : String)
    (uuid created_at : String) : EducationalContent :=
  let topic_lower := normalize_topic topic
  let topic_info := lookupTable topic_mappings topic_lower
  let difficulty_level :=
    match topic_info with
    | some info => info.difficulty_level
    | none => "high_school"
  let learning_objectives :=
    match topic_info with
    | some info => info.learning_objectives
    | none =>
      [ "Understand the fundamental concepts of " ++ topic
      , "Identify key components and processes in " ++ topic
      , "Explain the importance and applications of " ++ topic
      , "Analyze the relationship between " ++ topic ++
          " and related scientific principles" ]
  let related_topics :=
    match topic_info with
    | some info => info.related_topics
    | none =>
      [ topic ++ " Fundamentals"
      , "Advanced " ++ topic
      , topic ++ " Applications"
      , "Scientific Methodology" ]
  let educational_value : Int := if topic_info.isSome then 8 else 6
  { id := uuid
  , title := topic
  , description := description
  , page_url := page_url
  , image_url :=
      match image_url with
      | some s => if s ≠ "" then s else "generated_placeholder.png"
      | none => "generated_placeholder.png"
  , license := license_info
  , attribution :=
      if optTruthy image_url then "Wikipedia/Wikimedia Commons"
      else "Generated Educational Content"
  , learning_objectives := learning_objectives
  , difficulty_level := difficulty_level
  , related_topics := related_topics
  , created_at := created_at
  , source := if page_url ≠ "" then "wikipedia" else "generated"
  , image_quality := if optTruthy image_url then "high" else "generated"
  , educational_value := educational_value }

/-- The fallback record the `except` branch of
`EducationalContentFetcher.process_topics_batch` builds for a topic whose
processing raised (Q2 lines 543-561).  The `image_quality` field keeps its
dataclass default `"high"`; `source` is passed `"generated"`. -/
def batch_fallback_content (topic uuid created_at : String) :
    EducationalContent :=
  { id := uuid
  , title := topic
  , description := "Educational content about " ++ topic
  , page_url := "https://en.wikipedia.org/wiki/" ++ topic.replace " " "_"
  , image_url := create_educational_diagram topic
  , license := "CC BY-SA 4.0"
  , attribution := "Generated Educational Content"
  , learning_objectives := ["Learn about " ++ topic]
  , difficulty_level := "high_school"
  , related_topics := [topic ++ " Basics"]
  , created_at := created_at
  , source := "generated"
  , image_quality := "high"
  , educational_value := 5 }

/-- `EducationalContentFetcher.process_topics_batch` (Q2 lines 532-563).
`proc` summarizes `process_topic`: `.ok content` a normal return, `.error`
a raised exception; `uuidOf topic` stands for the fresh `str(uuid.uuid4())`
drawn in the `except` branch and `created_at` for its timestamp.  Every
topic contributes exactly one record, in order: its `process_topic` result
on success, the synthesized fallback record on an exception (the loop never
aborts). -/
def process_topics_batch (proc : String → Except Unit EducationalContent)
    (uuidOf : String → String) (created_at : String) :
    List String → List EducationalContent
  | [] => []
  | topic :: rest =>
    (match proc topic with
     | .ok content => content
     | .error _ => batch_fallback_content topic (uuidOf topic) created_at) ::
      process_topics_batch proc uuidOf created_at rest

end Q2

namespace Q3

/-- `CACHE_EXPIRY = 7 * 24 * 60 * 60` (Q3 line 49). -/
def CACHE_EXPIRY : Int := 7 * 24 * 60 * 60

/-- The canonical string `f"{concept}_{duration}_{audience}"` that
`EducationalAnimationGenerator.get_cache_key` (Q3 lines 264-266) feeds to
MD5.  `f"{duration}"` is the decimal rendering of the Python int, i.e.
`toString` on `Int`. -/
def cache_key_string (concept : String) (duration : Int) (audience : String) :
    String :=
  concept ++ "_" ++ toString duration ++ "_" ++ audience

/-- `EducationalAnimationGenerator.get_cache_key` (Q3 lines 264-266):
`hashlib.md5(f"{concept}_{duration}_{audience}".encode()).hexdigest()`. -/
def get_cache_key (md5hex : String → String) (concept : String)
    (duration : Int) (audience : String) : String :=
  md5hex (cache_key_string concept duration audience)

/-- `EducationalAnimationGenerator.is_cached` (Q3 lines 268-290). -/
def is_cached {α : Type} (cache_enabled : Bool) (now : Int) (dir : CacheDir α)
    (key : String) : Option α × CacheDir α :=
  cacheGet CACHE_EXPIRY cache_enabled now dir key

/-- `EducationalAnimationGenerator.cache_animation` (Q3 lines 292-307). -/
def cache_animation {α : Type} (cache_enabled : Bool) (writeOk : Bool)
    (now : Int) (dir : CacheDir α) (key : String) (content : α) : CacheDir α :=
  cachePut cache_enabled writeOk now dir key content

/-- The `AnimationRequest` dataclass (Q3 lines 51-59). -/
structure AnimationRequest where
  concept : String
  duration : Int
  target_audience : String
  animation_type : String := "gif"
  quality : String := "high"
  resolution : String := "720p"
  deriving DecidableEq

/-- The `AnimationResult` dataclass (Q3 lines 61-78). -/
structure AnimationResult where
  id : String
  concept : String
  animation_path : String
  duration : Int
  target_audience : String
  animation_type : String
  model_used : String
  created_at : String
  file_size : Int
  resolution : String
  quality : String
  learning_goals : List String
  key_learning_points : List String
  tricky_questions : List String
  educational_value : Int
  deriving DecidableEq

/-- One value of `EducationalAnimationGenerator.concept_mappings`
(Q3 lines 100-262).  The constructor installs a fixed seven-key table
(`wave_propagation`, `pendulum_motion`, `chemical_reactions`, `sine_wave`,
`planetary_orbits`, `molecular_bonding`, `geometric_transformations`); the
theorems below quantify over the table because its string contents never
influence control flow. -/
structure ConceptInfo where
  learning_goals : List String
  key_learning_points : List String
  tricky_questions : List String
  animation_prompt : String
  difficulty_level : String
  duration_range : Int × Int
  deriving DecidableEq

/-- `EducationalAnimationGenerator.generate_animation_huggingface`
(Q3 lines 309-362): skipped with `(None, "No API key")` when the credential
is falsy; otherwise the network interaction (model loop, polling, file save
via `_save_animation` with source `"huggingface"`) is summarized by its
outcome `netPath` — `some path` when a video was retrieved and saved, in
which case the returned tag is `"huggingface"`, and `none` otherwise with
`err` the failure-reason string. -/
def generate_animation_huggingface (hf_api_key : Option String)
    (netPath : Option String) (err : String) : Option String × String :=
  if !optTruthy hf_api_key then (none, "No API key")
  else
    match netPath with
    | some p => (some p, "huggingface")
    | none => (none, err)

/-- `EducationalAnimationGenerator.generate_animation_replicate`
(Q3 lines 402-435), summarized the same way; the success tag is
`"replicate"` (from `_save_animation(..., "replicate")`). -/
def generate_animation_replicate (replicate_api_key : Option String)
    (netPath : Option String) (err : String) : Option String × String :=
  if !optTruthy replicate_api_key then (none, "No API key")
  else
    match netPath with
    | some p => (some p, "replicate")
    | none => (none, err)

/-- `EducationalAnimationGenerator.generate_animation_stability`
(Q3 lines 475-510), summarized the same way; the success tag is
`"stability"`. -/
def generate_animation_stability (stability_api_key : Option String)
    (netPath : Option String) (err : String) : Option String × String :=
  if !optTruthy stability_api_key then (none, "No API key")
  else
    match netPath with
    | some p => (some p, "stability")
    | none => (none, err)

/-- `EducationalAnimationGenerator._create_text_animation`
(Q3 lines 679-705): writes a plain-text placeholder and returns
`(str(filepath), "text_fallback")`. -/
def create_text_animation (concept : String) (_duration : Int) :
    String × String :=
  ("output/animations/" ++ concept.replace " " "_" ++ "_text_animation.txt",
   "text_fallback")

/-- The GIF path `str(self.animations_dir / f"{concept.replace(' ', '_')}_fallback.gif")`
produced by each of the four matplotlib-based creators
(Q3 lines 538-677); all four return it with the tag
`"matplotlib_fallback"`. -/
def matplotlib_animation_path (concept : String) : String :=
  "output/animations/" ++ concept.replace " " "_" ++ "_fallback.gif"

/-- `EducationalAnimationGenerator.generate_fallback_animation`
(Q3 lines 512-536): dispatches on the concept to one of four
matplotlib-based creators, each of which returns
`(gif path, "matplotlib_fallback")` on success; any failure (matplotlib
missing or erroring, in the dispatcher or in a creator) falls through to
`_create_text_animation`.  `matplotlibOk` is whether the matplotlib path
succeeds.  The four creators differ only in external plotting code, so the
dispatch collapses in the embedding. -/
def generate_fallback_animation (matplotlibOk : Bool) (concept : String)
    (duration : Int) : String × String :=
  if matplotlibOk then (matplotlib_animation_path concept, "matplotlib_fallback")
  else create_text_animation concept duration

/-- The `model_used` tags of the two locally synthesized fallbacks — the
results the chain produces without any provider. -/
def localFallbackTags : List String := ["matplotlib_fallback", "text_fallback"]

/-- The pieces of the outside world `process_animation_request` consults:
the three credentials read from the environment at construction
(Q3 lines 95-97), the three providers' network outcomes, matplotlib
availability, `os.path.getsize`/`os.path.exists` (`file_size_of`, Q3 lines
819-821, absent file answering 0), `time.time()` (`now`),
`datetime.now(timezone.utc).isoformat()` (`now_iso`), `str(uuid.uuid4())`
(`uuid`) and the MD5 hex digest. -/
structure Env where
  hf_api_key : Option String
  replicate_api_key : Option String
  stability_api_key : Option String
  hfResult : Option String
  repResult : Option String
  stabResult : Option String
  hfErr : String
  repErr : String
  stabErr : String
  matplotlibOk : Bool
  file_size_of : String → Int
  now : Int
  now_iso : String
  uuid : String
  md5hex : String → String

/-- `EducationalAnimationGenerator.build_educational_metadata`
(Q3 lines 718-777).  `concept_mappings` is the table installed by the
constructor; when the concept's normalized key is present the curated
lists are used and `educational_value` is 8, otherwise the generic
templates and 6. -/
def build_educational_metadata (concept_mappings : List (String × ConceptInfo))
    (request : AnimationRequest) (animation_path model_used : String)
    (uuid created_at : String) (file_size : Int) : AnimationResult :=
  let concept_key := (request.concept.toLower).replace " " "_"
  let concept_info := Q2.lookupTable concept_mappings concept_key
  let learning_goals :=
    match concept_info with
    | some info => info.learning_goals
    | none =>
      [ "Understand the basics of " ++ request.concept
      , "Visualize " ++ request.concept ++ " dynamically"
      , "Apply " ++ request.concept ++ " to practical examples" ]
  let key_learning_points :=
    match concept_info with
    | some info => info.key_learning_points
    | none =>
      [ request.concept ++ " illustrated in motion"
      , "Highlights cause-effect relationships"
      , "Links visual understanding with theory" ]
  let tricky_questions :=
    match concept_info with
    | some info => info.tricky_questions
    | none =>
      [ "Explain the physics behind " ++ request.concept
      , "How does " ++ request.concept ++ " change if parameters vary?"
      , "Where is " ++ request.concept ++ " applied in real-world systems?" ]
  let educational_value : Int := if concept_info.isSome then 8 else 6
  { id := uuid
  , concept := request.concept
  , animation_path := animation_path
  , duration := request.duration
  , target_audience := request.target_audience
  , animation_type := request.animation_type
  , model_used := model_used
  , created_at := created_at
  , file_size := file_size
  , resolution := request.resolution
  , quality := request.quality
  , learning_goals := learning_goals
  , key_learning_points := key_learning_points
  , tricky_questions := tricky_questions
  , educational_value := educational_value }

/-- `EducationalAnimationGenerator.process_animation_request`
(Q3 lines 779-829): cache lookup (a hit is returned as-is, reconstructed
via `AnimationResult(**cached)`); otherwise the provider cascade — Hugging
Face, then Replicate, then Stability AI, each only when its credential is
truthy and the previous path is still falsy — then the unconditional local
fallback; then metadata construction and a best-effort cache write
(`writeOk` as in `cachePut`).  Returns the result and the resulting cache
directory. -/
def process_animation_request (env : Env) (cache_enabled writeOk : Bool)
    (concept_mappings : List (String × ConceptInfo))
    (dir : CacheDir AnimationResult) (request : AnimationRequest) :
    AnimationResult × CacheDir AnimationResult :=
  let cache_key :=
    get_cache_key env.md5hex request.concept request.duration
      request.target_audience
  let looked := is_cached cache_enabled env.now dir cache_key
  match looked.1 with
  | some cached => (cached, looked.2)
  | none =>
    let r1 : Option String × String :=
      if optTruthy env.hf_api_key then
        generate_animation_huggingface env.hf_api_key env.hfResult env.hfErr
      else (none, "unknown")
    let r2 : Option String × String :=
      if !optTruthy r1.1 && optTruthy env.replicate_api_key then
        generate_animation_replicate env.replicate_api_key env.repResult
          env.repErr
      else r1
    let r3 : Option String × String :=
      if !optTruthy r2.1 && optTruthy env.stability_api_key then
        generate_animation_stability env.stability_api_key env.stabResult
          env.stabErr
      else r2
    let final : String × String :=
      if optTruthy r3.1 then (r3.1.getD "", r3.2)
      else generate_fallback_animation env.matplotlibOk request.concept
        request.duration
    let file_size := env.file_size_of final.1
    let result :=
      build_educational_metadata concept_mappings request final.1 final.2
        env.uuid env.now_iso file_size
    let dir2 := cache_animation cache_enabled writeOk env.now looked.2
      cache_key result
    (result, dir2)

/-- The provider-chain contract as the specification words it: the first
configured provider whose attempt yields a usable result wins and its tag is
recorded; with no winner the local fallback's tag is recorded.  Stated from
the spec for comparison against `process_animation_request`. -/
def specWinningTag (env : Env) : String :=
  if optTruthy env.hf_api_key && optTruthy env.hfResult then "huggingface"
  else if optTruthy env.replicate_api_key && optTruthy env.repResult then
    "replicate"
  else if optTruthy env.stability_api_key && optTruthy env.stabResult then
    "stability"
  else if env.matplotlibOk then "matplotlib_fallback"
  else "text_fallback"

end Q3

namespace Q1Offline

/-- `ShapeAnalogyGenerator.calculate_diagonals` in
`shape_analogy_generator_offline.py` (lines 100-102), textually identical to
the online variant. -/
def calculate_diagonals (n : Int) : Int :=
  Int.fdiv (n * (n - 3)) 2

end Q1Offline

/-!
## Inputs used by the concrete witnesses and counterexamples
-/

/-- A fully populated Q1 entry of the shape `generate_analogy` constructs. -/
def sampleEntry : Q1.Entry :=
  { id := some "analogy_001"
  , prompt := some "Triangle is to 3 sides as Square is to 4 sides"
  , model := some "runwayml/stable-diffusion-v1-5"
  , seed := some 1234
  , created_at := some "2024-01-01T00:00:00+00:00"
  , image_url := some "output/images/analogy_001.png"
  , complexity_level := some "beginner"
  , estimated_time_minutes := some 2
  , tricky_questions := some ["How many diagonals does a triangle have?"]
  , shape_a := some "Triangle"
  , shape_b := some "Square"
  , relationship := some "sides" }

/-- `sampleEntry` with its `prompt` removed: it misses a required field. -/
def sampleEntryNoPrompt : Q1.Entry :=
  { sampleEntry with prompt := none }

/-- `sampleEntry` with a classification value outside the enumerated set. -/
def sampleEntryBadLevel : Q1.Entry :=
  { sampleEntry with complexity_level := some "expert" }

/-- A concrete `process_topic` behaviour for a three-topic batch: processing
raises exactly on topic `"B"`. -/
def procFailsOnB : String → Except Unit Q2.EducationalContent :=
  fun topic =>
    if topic == "B" then .error ()
    else
      .ok (Q2.build_educational_metadata topic ("About " ++ topic) none
        ("https://en.wikipedia.org/wiki/" ++ topic) "CC BY-SA 4.0"
        ("uid-" ++ topic) "2024-01-01T00:00:00+00:00")

/-- A concrete Q3 environment with no provider credential configured. -/
def envNoKeys : Q3.Env :=
  { hf_api_key := none
  , replicate_api_key := none
  , stability_api_key := none
  , hfResult := none
  , repResult := none
  , stabResult := none
  , hfErr := "All Hugging Face models failed"
  , repErr := "Replicate task failed"
  , stabErr := "No video URL in response"
  , matplotlibOk := true
  , file_size_of := fun _ => 0
  , now := 0
  , now_iso := "2024-01-01T00:00:00+00:00"
  , uuid := "uid-0"
  , md5hex := fun s => s }

/-- A concrete animation request. -/
def sampleRequest : Q3.AnimationRequest :=
  { concept := "sine wave", duration := 8, target_audience := "high_school" }

/-!
## Helper lemmas
-/

theorem optTruthy_iff (o : Option String) :
    optTruthy o = true ↔ ∃ s, o = some s ∧ s ≠ "" := by
  cases o with
  | none => simp [optTruthy]
  | some s => simp [optTruthy]

theorem optTruthy_eq_false_iff (o : Option String) :
    optTruthy o = false ↔ o = none ∨ o = some "" := by
  cases o with
  | none => simp [optTruthy]
  | some s => simp [optTruthy]

theorem lookupFile_removeFile_self {α : Type} (dir : CacheDir α) (key : String) :
    lookupFile (removeFile dir key) key = none := by
  induction dir with
  | nil => rfl
  | cons p rest ih =>
    by_cases h : p.1 = key
    · simpa [removeFile, h] using ih
    · have hne : (p.1 != key) = true := by simp [bne, h]
      obtain ⟨k, e⟩ := p
      simp only [] at h hne
      simp [removeFile, lookupFile, hne, h, List.filter] at ih ⊢
      simpa [removeFile] using ih

theorem lookupFile_writeFile_self {α : Type} (dir : CacheDir α) (key : String)
    (e : CacheEntry α) : lookupFile (writeFile dir key e) key = some e := by
  simp [writeFile, lookupFile]

theorem stringAppend_cancel_right (a b c : String) (h : a ++ c = b ++ c) :
    a = b := by
  have hd := congrArg String.data h
  simp only [String.data_append] at hd
  exact String.ext (List.append_cancel_right hd)

theorem stringAppend_cancel_left (a b c : String) (h : a ++ b = a ++ c) :
    b = c := by
  have hd := congrArg String.data h
  simp only [String.data_append] at hd
  exact String.ext (List.append_cancel_left hd)

theorem cacheGet_found_expired {α : Type} (expiry now : Int) (dir : CacheDir α)
    (key : String) (e : CacheEntry α) (hfound : lookupFile dir key = some e)
    (h : now - e.cached_at > expiry) :
    cacheGet expiry true now dir key = (none, removeFile dir key) := by
  simp [cacheGet, hfound, h]

theorem cacheGet_found_fresh {α : Type} (expiry now : Int) (dir : CacheDir α)
    (key : String) (e : CacheEntry α) (hfound : lookupFile dir key = some e)
    (h : now - e.cached_at ≤ expiry) :
    cacheGet expiry true now dir key = (some e.data, dir) := by
  simp [cacheGet, hfound, not_lt.mpr h]

/-!
## The claims
-/

/-- Claim C2: a cache entry with `now - cached_at > expiry` is treated as
absent by `get` and its backing file is deleted from the cache directory; an
entry with `now - cached_at <= expiry` is returned unchanged.  Stated for
Q2's `is_cached` (expiry 24h) and Q3's `is_cached` (expiry 7 days); Q1's
image cache stores no timestamps at all, so no entry there has a
`cached_at`. -/
theorem claim_C2_cache_expiry {α : Type} (now : Int) (dir : CacheDir α)
    (key : String) (e : CacheEntry α) (hfound : lookupFile dir key = some e) :
    ((now - e.cached_at > Q2.CACHE_EXPIRY →
        Q2.is_cached true now dir key = (none, removeFile dir key) ∧
        lookupFile (Q2.is_cached true now dir key).2 key = none) ∧
      (now - e.cached_at ≤ Q2.CACHE_EXPIRY →
        Q2.is_cached true now dir key = (some e.data, dir))) ∧
    ((now - e.cached_at > Q3.CACHE_EXPIRY →
        Q3.is_cached true now dir key = (none, removeFile dir key) ∧
        lookupFile (Q3.is_cached true now dir key).2 key = none) ∧
      (now - e.cached_at ≤ Q3.CACHE_EXPIRY →
        Q3.is_cached true now dir key = (some e.data, dir))) := by
  refine ⟨⟨fun h => ?_, fun h => ?_⟩, ⟨fun h => ?_, fun h => ?_⟩⟩
  · have heq := cacheGet_found_expired Q2.CACHE_EXPIRY now dir key e hfound h
    refine ⟨heq, ?_⟩
    rw [Q2.is_cached, heq]
    exact lookupFile_removeFile_self dir key
  · exact cacheGet_found_fresh Q2.CACHE_EXPIRY now dir key e hfound h
  · have heq := cacheGet_found_expired Q3.CACHE_EXPIRY now dir key e hfound h
    refine ⟨heq, ?_⟩
    rw [Q3.is_cached, heq]
    exact lookupFile_removeFile_self dir key
  · exact cacheGet_found_fresh Q3.CACHE_EXPIRY now dir key e hfound h

/-- Witness for C2 at a concrete directory: the sole entry, cached at time 0
and read at time 100000 (> 24h), is reported absent and its file deleted;
read at time 100 it is returned unchanged. -/
theorem claim_C2_cache_expiry_witness :
    (Q2.is_cached true 100000
        ([("k", { cached_at := 0, data := 7 })] : CacheDir Nat) "k" =
      (none, []) ∧
      Q2.is_cached true 100
        ([("k", { cached_at := 0, data := 7 })] : CacheDir Nat) "k" =
      (some 7, [("k", { cached_at := 0, data := 7 })])) := by
  have h1 := claim_C2_cache_expiry 100000
    ([("k", { cached_at := 0, data := 7 })] : CacheDir Nat) "k"
    { cached_at := 0, data := 7 } (by decide)
  have h2 := claim_C2_cache_expiry 100
    ([("k", { cached_at := 0, data := 7 })] : CacheDir Nat) "k"
    { cached_at := 0, data := 7 } (by decide)
  refine ⟨?_, h2.1.2 (by decide)⟩
  have h3 := h1.1.1 (by decide)
  simpa [removeFile] using h3.1

/-- Claim C3: writing a record under a request's key and immediately reading
that key back, while still inside the expiry window, returns the record
unchanged (Q2's `cache_content` then `is_cached`, caching enabled, the write
succeeding). -/
theorem claim_C3_cache_roundtrip {α : Type} (md5hex : String → String)
    (topic content_type : String) (rec : α) (dir : CacheDir α)
    (now now2 : Int) (h : now2 - now ≤ Q2.CACHE_EXPIRY) :
    (Q2.is_cached true now2
        (Q2.cache_content true true now dir
          (Q2.get_cache_key md5hex topic content_type) rec)
        (Q2.get_cache_key md5hex topic content_type)).1 = some rec := by
  have hw : Q2.cache_content true true now dir
      (Q2.get_cache_key md5hex topic content_type) rec =
      writeFile dir (Q2.get_cache_key md5hex topic content_type)
        { cached_at := now, data := rec } := rfl
  rw [hw, Q2.is_cached, cacheGet_found_fresh _ _ _ _ _
    (lookupFile_writeFile_self dir _ _) h]

/-- Witness for C3: put then get at the same instant returns the record. -/
theorem claim_C3_cache_roundtrip_witness :
    (Q2.is_cached true 0
        (Q2.cache_content true true 0 ([] : CacheDir Nat)
          (Q2.get_cache_key (fun s => s) "photosynthesis" "content") 7)
        (Q2.get_cache_key (fun s => s) "photosynthesis" "content")).1 =
      some 7 :=
  claim_C3_cache_roundtrip (fun s => s) "photosynthesis" "content" 7 [] 0 0
    (by decide)

/-- Claim C4 fails: the cache key is the MD5 of the identifying fields
joined with `"_"`, and a field may itself contain `"_"`, so two requests
with different identifying fields can produce the same canonical string —
hence the same key, whatever the hash does.  Q2: topics/content types
`("a_b", "c")` and `("a", "b_c")`; Q3: `(concept, duration, audience)`
triples `("a_1", 2, "b")` and `("a", 1, "2_b")`. -/
theorem claim_C4_counterexample :
    Q2.cache_key_string "a_b" "c" = Q2.cache_key_string "a" "b_c" ∧
    (("a_b", "c") : String × String) ≠ ("a", "b_c") ∧
    Q3.cache_key_string "a_1" 2 "b" = Q3.cache_key_string "a" 1 "2_b" ∧
    (("a_1", (2 : Int), "b") : String × Int × String) ≠ ("a", 1, "2_b") := by
  refine ⟨rfl, by decide, rfl, by decide⟩

/-- Claim C4, amended: the keying is deterministic — identical identifying
fields give identical keys, and the key depends only on the `"_"`-joined
canonical string, so equal canonical strings force equal keys even for
different fields (the collision above); changing a single identifying field
while holding the others fixed does change the canonical string fed to the
hash. -/
theorem claim_C4_amended (md5hex : String → String) (t1 c1 t2 c2 : String)
    (concept1 concept2 audience1 audience2 : String) (d1 d2 : Int) :
    (t1 = t2 → c1 = c2 →
      Q2.get_cache_key md5hex t1 c1 = Q2.get_cache_key md5hex t2 c2) ∧
    (Q2.cache_key_string t1 c1 = Q2.cache_key_string t2 c2 →
      Q2.get_cache_key md5hex t1 c1 = Q2.get_cache_key md5hex t2 c2) ∧
    (t1 ≠ t2 → Q2.cache_key_string t1 c1 ≠ Q2.cache_key_string t2 c1) ∧
    (c1 ≠ c2 → Q2.cache_key_string t1 c1 ≠ Q2.cache_key_string t1 c2) ∧
    (Q3.cache_key_string concept1 d1 audience1 =
        Q3.cache_key_string concept2 d2 audience2 →
      Q3.get_cache_key md5hex concept1 d1 audience1 =
        Q3.get_cache_key md5hex concept2 d2 audience2) := by
  refine ⟨?_, ?_, ?_, ?_, ?_⟩
  · intro h1 h2
    rw [h1, h2]
  · intro h
    simp only [Q2.get_cache_key, h]
  · intro hne heq
    apply hne
    have h1 : t1 ++ ("_" ++ c1) = t2 ++ ("_" ++ c1) := by
      simpa [Q2.cache_key_string, String.append_assoc] using heq
    exact stringAppend_cancel_right t1 t2 ("_" ++ c1) h1
  · intro hne heq
    apply hne
    have h1 : (t1 ++ "_") ++ c1 = (t1 ++ "_") ++ c2 := by
      simpa [Q2.cache_key_string] using heq
    exact stringAppend_cancel_left (t1 ++ "_") c1 c2 h1
  · intro h
    simp only [Q3.get_cache_key, h]

/-- Witness for C4 (amended): determinism and the canonical-string collision
evaluated at concrete requests. -/
theorem claim_C4_amended_witness :
    Q2.get_cache_key (fun s => s) "photosynthesis" "content" =
      Q2.get_cache_key (fun s => s) "photosynthesis" "content" ∧
    Q2.cache_key_string "a_b" "c" ≠ Q2.cache_key_string "x_b" "c" := by
  have h := claim_C4_amended (fun s => s) "photosynthesis" "content"
    "photosynthesis" "content" "a" "a" "b" "b" 1 1
  refine ⟨h.1 rfl rfl, ?_⟩
  have h2 := claim_C4_amended (fun s => s) "a_b" "c" "x_b" "c" "a" "a" "b" "b"
    1 1
  exact h2.2.2.1 (by decide)

/-- Claim C5: for every `n >= 3` the diagonal-count function returns
`n*(n-3)/2` (the division exact), with the listed concrete values; the
offline variant computes the same function. -/
theorem claim_C5_diagonal_formula (n : Int) (_h : 3 ≤ n) :
    Q1.calculate_diagonals n = n * (n - 3) / 2 ∧
    2 * Q1.calculate_diagonals n = n * (n - 3) ∧
    Q1.calculate_diagonals 3 = 0 ∧ Q1.calculate_diagonals 4 = 2 ∧
    Q1.calculate_diagonals 5 = 5 ∧ Q1.calculate_diagonals 6 = 9 ∧
    Q1.calculate_diagonals 20 = 170 ∧
    Q1Offline.calculate_diagonals n = Q1.calculate_diagonals n := by
  have heven : (2 : Int) ∣ n * (n - 3) := by
    rcases Int.even_or_odd n with he | ho
    · exact Dvd.dvd.mul_right he.two_dvd _
    · have : Even (n - 3) := by
        rcases ho with ⟨k, hk⟩
        exact ⟨k - 1, by omega⟩
      exact Dvd.dvd.mul_left this.two_dvd _
    
  have hdiv : Q1.calculate_diagonals n = n * (n - 3) / 2 :=
    Int.fdiv_eq_ediv _ (by norm_num)
  refine ⟨hdiv, ?_, by decide, by decide, by decide, by decide, by decide, rfl⟩
  rw [hdiv]
  exact Int.mul_ediv_cancel' heven

/-- Witness for C5 at `n = 20`. -/
theorem claim_C5_diagonal_formula_witness :
    Q1.calculate_diagonals 20 = 20 * (20 - 3) / 2 :=
  (claim_C5_diagonal_formula 20 (by decide)).1

/-- Claim C10: for `n < 3` the diagonal-count function evaluates the formula
silently (it is total and raises nothing): it returns `n*(n-3)` floor-divided
by 2, which is 0 at `n = 0` and -1 at `n = 1` and `n = 2`; the offline
variant computes the same function. -/
theorem claim_C10_degenerate_inputs (n : Int) (_h : n < 3) :
    Q1.calculate_diagonals n = Int.fdiv (n * (n - 3)) 2 ∧
    Q1.calculate_diagonals 0 = 0 ∧ Q1.calculate_diagonals 1 = -1 ∧
    Q1.calculate_diagonals 2 = -1 ∧
    Q1Offline.calculate_diagonals n = Q1.calculate_diagonals n :=
  ⟨rfl, by decide, by decide, by decide, rfl⟩

/-- Witness for C10 at `n = 1`. -/
theorem claim_C10_degenerate_inputs_witness :
    Q1.calculate_diagonals 1 = Int.fdiv (1 * (1 - 3)) 2 :=
  (claim_C10_degenerate_inputs 1 (by decide)).1

theorem mem_generate_analogies (e : Q1.Entry) (es : List Q1.Entry) :
    e ∈ Q1.generate_analogies es ↔ e ∈ es ∧ Q1.validateEntry e = true := by
  constructor
  · intro h
    obtain ⟨b, hb, hbe⟩ := List.mem_filterMap.mp h
    unfold Q1.generate_analogy_validate at hbe
    by_cases hv : Q1.validateEntry b = true
    · rw [if_pos hv] at hbe
      injection hbe with hbe
      subst hbe
      exact ⟨hb, hv⟩
    · rw [if_neg hv] at hbe
      exact absurd hbe (by simp)
  · rintro ⟨hb, hv⟩
    exact List.mem_filterMap.mpr
      ⟨e, hb, by simp [Q1.generate_analogy_validate, hv]⟩

/-- Claim C7: validation of a generated record fails exactly when a required
field is missing or the `complexity_level` value lies outside
`{beginner, intermediate, advanced}`; a failing record is discarded and
never reaches the persisted output, while a record passing validation is
persisted. -/
theorem claim_C7_schema_gate (e : Q1.Entry) (es : List Q1.Entry) :
    (Q1.validateEntry e = false ↔
      (Q1.requiredPresent e = false ∨
        ∃ c, e.complexity_level = some c ∧
          Q1.complexityEnum.contains c = false)) ∧
    (Q1.validateEntry e = false →
      e ∉ Q1.save_results (Q1.generate_analogies es)) ∧
    (e ∈ es → Q1.validateEntry e = true →
      e ∈ Q1.save_results (Q1.generate_analogies es)) := by
  have hc : Q1.complexityOk e = false ↔
      ∃ c, e.complexity_level = some c ∧
        Q1.complexityEnum.contains c = false := by
    unfold Q1.complexityOk
    cases hcl : e.complexity_level with
    | none => simp
    | some c => simp
  refine ⟨?_, ?_, ?_⟩
  · constructor
    · intro h
      by_cases hreq : Q1.requiredPresent e = true
      · right
        apply hc.mp
        simpa [Q1.validateEntry, hreq] using h
      · left
        rwa [Bool.not_eq_true] at hreq
    · intro h
      rcases h with h | h
      · simp [Q1.validateEntry, h]
      · simp [Q1.validateEntry, hc.mpr h]
  · intro hv hmem
    rw [Q1.save_results] at hmem
    obtain ⟨_, hv2⟩ := (mem_generate_analogies e es).mp hmem
    simp [hv] at hv2
  · intro hin hv
    rw [Q1.save_results]
    exact (mem_generate_analogies e es).mpr ⟨hin, hv⟩

/-- Witness for C7: in a run whose candidates are a record missing a
required field, a fully populated valid record, and a record with an
out-of-enum classification, exactly the valid record is persisted. -/
theorem claim_C7_schema_gate_witness :
    Q1.validateEntry sampleEntry = true ∧
    sampleEntry ∈ Q1.save_results (Q1.generate_analogies
      [sampleEntryNoPrompt, sampleEntry, sampleEntryBadLevel]) ∧
    Q1.validateEntry sampleEntryBadLevel = false ∧
    sampleEntryBadLevel ∉ Q1.save_results (Q1.generate_analogies
      [sampleEntryNoPrompt, sampleEntry, sampleEntryBadLevel]) ∧
    Q1.validateEntry sampleEntryNoPrompt = false ∧
    sampleEntryNoPrompt ∉ Q1.save_results (Q1.generate_analogies
      [sampleEntryNoPrompt, sampleEntry, sampleEntryBadLevel]) := by
  have h1 := claim_C7_schema_gate sampleEntry
    [sampleEntryNoPrompt, sampleEntry, sampleEntryBadLevel]
  have h2 := claim_C7_schema_gate sampleEntryBadLevel
    [sampleEntryNoPrompt, sampleEntry, sampleEntryBadLevel]
  have h3 := claim_C7_schema_gate sampleEntryNoPrompt
    [sampleEntryNoPrompt, sampleEntry, sampleEntryBadLevel]
  exact ⟨by decide, h1.2.2 (by decide) (by decide), by decide,
    h2.2.1 (by decide), by decide, h3.2.1 (by decide)⟩

/-- Claim C6 fails: in a batch `[A, B, C]` where processing `B` raises, the
collected result does not contain records for `A` and `C` only — the
`except` branch of `process_topics_batch` synthesizes a fallback record for
`B` (tagged `source = "generated"`) and appends it, so the result has one
record per subject: titles `[A, B, C]`, not `[A, C]`. -/
theorem claim_C6_counterexample :
    (Q2.process_topics_batch procFailsOnB (fun t => "uid-" ++ t)
        "2024-01-01T00:00:00+00:00" ["A", "B", "C"]).map
      (fun c => c.title) = ["A", "B", "C"] ∧
    (Q2.process_topics_batch procFailsOnB (fun t => "uid-" ++ t)
        "2024-01-01T00:00:00+00:00" ["A", "B", "C"]).length = 3 ∧
    (Q2.process_topics_batch procFailsOnB (fun t => "uid-" ++ t)
        "2024-01-01T00:00:00+00:00" ["A", "B", "C"]).map
      (fun c => c.source) = ["wikipedia", "generated", "wikipedia"] ∧
    (Q2.process_topics_batch procFailsOnB (fun t => "uid-" ++ t)
        "2024-01-01T00:00:00+00:00" ["A", "B", "C"]).map
      (fun c => c.title) ≠ ["A", "C"] := by
  refine ⟨by decide, by decide, by decide, by decide⟩

/-- Claim C6, amended: the batch run does not abort; `A`'s and `C`'s records
appear unchanged and in order, and `B` contributes the locally synthesized
fallback record (tagged `source = "generated"`) between them — one record
per subject. -/
theorem claim_C6_amended (proc : String → Except Unit Q2.EducationalContent)
    (uuidOf : String → String) (created_at : String) (A B C : String)
    (a c : Q2.EducationalContent) (hA : proc A = .ok a)
    (hB : proc B = .error ()) (hC : proc C = .ok c) :
    Q2.process_topics_batch proc uuidOf created_at [A, B, C] =
      [a, Q2.batch_fallback_content B (uuidOf B) created_at, c] := by
  simp [Q2.process_topics_batch, hA, hB, hC]

/-- Witness for C6 (amended) at the concrete batch with `B` failing. -/
theorem claim_C6_amended_witness :
    Q2.process_topics_batch procFailsOnB (fun t => "uid-" ++ t)
        "2024-01-01T00:00:00+00:00" ["A", "B", "C"] =
      [Q2.build_educational_metadata "A" "About A" none
          "https://en.wikipedia.org/wiki/A" "CC BY-SA 4.0" "uid-A"
          "2024-01-01T00:00:00+00:00",
        Q2.batch_fallback_content "B" "uid-B" "2024-01-01T00:00:00+00:00",
        Q2.build_educational_metadata "C" "About C" none
          "https://en.wikipedia.org/wiki/C" "CC BY-SA 4.0" "uid-C"
          "2024-01-01T00:00:00+00:00"] :=
  claim_C6_amended procFailsOnB (fun t => "uid-" ++ t)
    "2024-01-01T00:00:00+00:00" "A" "B" "C" _ _ rfl rfl rfl

/-- Claim C8 fails on Q1: `cache_image` performs `shutil.copy2` with no
exception handling of its own, and the surrounding `try` in `generate_image`
catches only `RequestException`, so an `OSError` raised while writing the
cache propagates and fails the whole request — here a run whose only HTTP
attempt succeeds with status 200 errors out if and only if the cache write
fails. -/
theorem claim_C8_counterexample :
    Q1.generate_image false [Except.ok 200] false =
      Except.error Q1.PyExc.osError ∧
    Q1.generate_image false [Except.ok 200] true = Except.ok true :=
  ⟨rfl, rfl⟩

/-- Claim C8, amended: in Q2 and Q3 the cache write is wrapped in
`try/except` and a failure is logged and swallowed — `cache_content` and
`cache_animation` return normally with the directory unchanged, and the
result of `process_animation_request` is identical whether or not the cache
write succeeds.  In Q1, by contrast, `cache_image` is unguarded and a
cache-write failure fails the request (the counterexample). -/
theorem claim_C8_amended {α : Type} (env : Q3.Env) (cache_enabled : Bool)
    (mappings : List (String × Q3.ConceptInfo))
    (dir : CacheDir Q3.AnimationResult) (request : Q3.AnimationRequest)
    (now : Int) (dir2 : CacheDir α) (key : String) (content : α) :
    (Q3.process_animation_request env cache_enabled false mappings dir
        request).1 =
      (Q3.process_animation_request env cache_enabled true mappings dir
        request).1 ∧
    Q2.cache_content cache_enabled false now dir2 key content = dir2 ∧
    Q3.cache_animation cache_enabled false now dir2 key content = dir2 := by
  refine ⟨?_, ?_, ?_⟩
  · unfold Q3.process_animation_request
    cases h : (Q3.is_cached cache_enabled env.now dir
        (Q3.get_cache_key env.md5hex request.concept request.duration
          request.target_audience)).1 <;>
      simp [h]
  · cases cache_enabled <;> rfl
  · cases cache_enabled <;> rfl

/-- Claim C1: with no provider credential configured and no usable cache
entry, `process_animation_request` still returns a record for the request —
the chain bottoms out in the unconditional local fallback, whose tag
(`matplotlib_fallback` or, when matplotlib fails, `text_fallback`) is
recorded in `model_used`; no exception reaches the caller (the embedded
function is total). -/
theorem claim_C1_fallback_totality (env : Q3.Env) (cache_enabled writeOk : Bool)
    (mappings : List (String × Q3.ConceptInfo))
    (dir : CacheDir Q3.AnimationResult) (request : Q3.AnimationRequest)
    (hhf : env.hf_api_key = none) (hrep : env.replicate_api_key = none)
    (hstab : env.stability_api_key = none)
    (hmiss : (Q3.is_cached cache_enabled env.now dir
        (Q3.get_cache_key env.md5hex request.concept request.duration
          request.target_audience)).1 = none) :
    ((Q3.process_animation_request env cache_enabled writeOk mappings dir
        request).1).model_used ∈ Q3.localFallbackTags ∧
    ((Q3.process_animation_request env cache_enabled writeOk mappings dir
        request).1).model_used =
      (Q3.generate_fallback_animation env.matplotlibOk request.concept
        request.duration).2 ∧
    ((Q3.process_animation_request env cache_enabled writeOk mappings dir
        request).1).concept = request.concept := by
  have hred : (Q3.process_animation_request env cache_enabled writeOk mappings
      dir request).1 =
      Q3.build_educational_metadata mappings request
        (Q3.generate_fallback_animation env.matplotlibOk request.concept
          request.duration).1
        (Q3.generate_fallback_animation env.matplotlibOk request.concept
          request.duration).2
        env.uuid env.now_iso
        (env.file_size_of (Q3.generate_fallback_animation env.matplotlibOk
          request.concept request.duration).1) := by
    unfold Q3.process_animation_request
    simp [hmiss, hhf, hrep, hstab, optTruthy]
  rw [hred]
  refine ⟨?_, rfl, rfl⟩
  unfold Q3.generate_fallback_animation Q3.localFallbackTags
  cases env.matplotlibOk <;>
    simp [Q3.create_text_animation, Q3.build_educational_metadata]

/-- Witness for C1: no credentials, empty cache, concrete request — the
returned record's `model_used` is a local-fallback tag. -/
theorem claim_C1_fallback_totality_witness :
    ((Q3.process_animation_request envNoKeys true true [] [] sampleRequest).1
      ).model_used ∈ Q3.localFallbackTags :=
  (claim_C1_fallback_totality envNoKeys true true [] [] sampleRequest rfl rfl
    rfl rfl).1

theorem gen_hf_truthiness (k n : Option String) (e : String) :
    optTruthy (Q3.generate_animation_huggingface k n e).1 =
      (optTruthy k && optTruthy n) := by
  unfold Q3.generate_animation_huggingface
  cases hk : optTruthy k with
  | false => simp [optTruthy]
  | true => cases n with
    | none => simp [optTruthy]
    | some p => simp [optTruthy]

theorem gen_hf_success (k n : Option String) (e : String)
    (hk : optTruthy k = true) (hn : optTruthy n = true) :
    Q3.generate_animation_huggingface k n e = (n, "huggingface") := by
  obtain ⟨p, hp, hpne⟩ := (optTruthy_iff n).mp hn
  subst hp
  unfold Q3.generate_animation_huggingface
  simp [hk]

theorem gen_rep_truthiness (k n : Option String) (e : String) :
    optTruthy (Q3.generate_animation_replicate k n e).1 =
      (optTruthy k && optTruthy n) := by
  unfold Q3.generate_animation_replicate
  cases hk : optTruthy k with
  | false => simp [optTruthy]
  | true => cases n with
    | none => simp [optTruthy]
    | some p => simp [optTruthy]

theorem gen_rep_success (k n : Option String) (e : String)
    (hk : optTruthy k = true) (hn : optTruthy n = true) :
    Q3.generate_animation_replicate k n e = (n, "replicate") := by
  obtain ⟨p, hp, hpne⟩ := (optTruthy_iff n).mp hn
  subst hp
  unfold Q3.generate_animation_replicate
  simp [hk]

theorem gen_stab_truthiness (k n : Option String) (e : String) :
    optTruthy (Q3.generate_animation_stability k n e).1 =
      (optTruthy k && optTruthy n) := by
  unfold Q3.generate_animation_stability
  cases hk : optTruthy k with
  | false => simp [optTruthy]
  | true => cases n with
    | none => simp [optTruthy]
    | some p => simp [optTruthy]

theorem gen_stab_success (k n : Option String) (e : String)
    (hk : optTruthy k = true) (hn : optTruthy n = true) :
    Q3.generate_animation_stability k n e = (n, "stability") := by
  obtain ⟨p, hp, hpne⟩ := (optTruthy_iff n).mp hn
  subst hp
  unfold Q3.generate_animation_stability
  simp [hk]

theorem build_metadata_model_used
    (mappings : List (String × Q3.ConceptInfo)) (request : Q3.AnimationRequest)
    (p t u c : String) (f : Int) :
    (Q3.build_educational_metadata mappings request p t u c f).model_used =
      t := rfl

/-- Claim C9, amended (the part that holds, on Q3): on a cache miss the
`model_used` field of the produced record equals the tag of the first
configured provider whose attempt produced a usable path — `huggingface`,
then `replicate`, then `stability` — and the local fallback's tag when no
provider did, exactly as `specWinningTag` words the spec's contract. -/
theorem claim_C9_amended (env : Q3.Env) (cache_enabled writeOk : Bool)
    (mappings : List (String × Q3.ConceptInfo))
    (dir : CacheDir Q3.AnimationResult) (request : Q3.AnimationRequest)
    (hmiss : (Q3.is_cached cache_enabled env.now dir
        (Q3.get_cache_key env.md5hex request.concept request.duration
          request.target_audience)).1 = none) :
    ((Q3.process_animation_request env cache_enabled writeOk mappings dir
        request).1).model_used = Q3.specWinningTag env := by
  unfold Q3.process_animation_request
  simp only [hmiss, build_metadata_model_used]
  set r1 : Option String × String :=
    if optTruthy env.hf_api_key then
      Q3.generate_animation_huggingface env.hf_api_key env.hfResult env.hfErr
    else (none, "unknown") with hr1def
  have hr1t : optTruthy r1.1 =
      (optTruthy env.hf_api_key && optTruthy env.hfResult) := by
    rw [hr1def]
    by_cases hk : optTruthy env.hf_api_key = true
    · simp [hk, gen_hf_truthiness]
    · have hkf : optTruthy env.hf_api_key = false := Bool.eq_false_iff.mpr hk
      rw [hkf]
      simp [optTruthy]
  by_cases h1 : (optTruthy env.hf_api_key && optTruthy env.hfResult) = true
  · rw [Bool.and_eq_true] at h1
    obtain ⟨hk1, hn1⟩ := h1
    have hr1v : r1 = (env.hfResult, "huggingface") := by
      rw [hr1def, if_pos hk1]
      exact gen_hf_success _ _ _ hk1 hn1
    rw [hr1v]
    simp [hn1, Q3.specWinningTag, hk1]
  · have h1f := Bool.eq_false_iff.mpr h1
    simp only [hr1t, h1f, Bool.not_false, Bool.true_and]
    set r2 : Option String × String :=
      if optTruthy env.replicate_api_key then
        Q3.generate_animation_replicate env.replicate_api_key env.repResult
          env.repErr
      else r1 with hr2def
    have hr2t : optTruthy r2.1 =
        (optTruthy env.replicate_api_key && optTruthy env.repResult) := by
      rw [hr2def]
      by_cases hk : optTruthy env.replicate_api_key = true
      · simp [hk, gen_rep_truthiness]
      · have hkf : optTruthy env.replicate_api_key = false :=
          Bool.eq_false_iff.mpr hk
        rw [hkf]
        simp only [Bool.false_eq_true, if_false, Bool.false_and]
        rw [hr1t]
        exact h1f
    by_cases h2 : (optTruthy env.replicate_api_key && optTruthy env.repResult)
        = true
    · rw [Bool.and_eq_true] at h2
      obtain ⟨hk2, hn2⟩ := h2
      have hr2v : r2 = (env.repResult, "replicate") := by
        rw [hr2def, if_pos hk2]
        exact gen_rep_success _ _ _ hk2 hn2
      rw [hr2v]
      simp [hn2, Q3.specWinningTag, h1f, hk2]
    · have h2f := Bool.eq_false_iff.mpr h2
      simp only [hr2t, h2f, Bool.not_false, Bool.true_and]
      set r3 : Option String × String :=
        if optTruthy env.stability_api_key then
          Q3.generate_animation_stability env.stability_api_key env.stabResult
            env.stabErr
        else r2 with hr3def
      have hr3t : optTruthy r3.1 =
          (optTruthy env.stability_api_key && optTruthy env.stabResult) := by
        rw [hr3def]
        by_cases hk : optTruthy env.stability_api_key = true
        · simp [hk, gen_stab_truthiness]
        · have hkf : optTruthy env.stability_api_key = false :=
            Bool.eq_false_iff.mpr hk
          rw [hkf]
          simp only [Bool.false_eq_true, if_false, Bool.false_and]
          rw [hr2t]
          exact h2f
      by_cases h3 : (optTruthy env.stability_api_key &&
          optTruthy env.stabResult) = true
      · rw [Bool.and_eq_true] at h3
        obtain ⟨hk3, hn3⟩ := h3
        have hr3v : r3 = (env.stabResult, "stability") := by
          rw [hr3def, if_pos hk3]
          exact gen_stab_success _ _ _ hk3 hn3
        rw [hr3v]
        simp [hn3, Q3.specWinningTag, h1f, h2f, hk3]
      · have h3f := Bool.eq_false_iff.mpr h3
        simp only [hr3t, h3f, Bool.false_eq_true, if_false]
        unfold Q3.specWinningTag Q3.generate_fallback_animation
          Q3.create_text_animation
        simp [h1f, h2f, h3f]
        cases env.matplotlibOk <;> simp

/-- Claim C9 fails on Q2: when the Wikipedia request raises (all providers
failed), the content is locally synthesized, yet the record's `source` field
is `"wikipedia"`, not the local tag `"generated"` — `build_educational_metadata`
computes `source` from the truthiness of `page_url` alone, and
`_generate_fallback_content` synthesizes a nonempty wikipedia `page_url`, so
the tag cannot distinguish provider output from fallback output. -/
theorem claim_C9_counterexample :
    Q2.fetch_wikipedia_content "Gravity" none (Except.error ()) =
      Q2.generate_fallback_content "Gravity" ∧
    (Q2.generate_fallback_content "Gravity").image_url = none ∧
    (Q2.build_educational_metadata "Gravity"
        (Q2.generate_fallback_content "Gravity").description
        (Q2.generate_fallback_content "Gravity").image_url
        (Q2.generate_fallback_content "Gravity").page_url
        (Q2.generate_fallback_content "Gravity").license
        "uid-1" "2024-01-01T00:00:00+00:00").source = "wikipedia" ∧
    "wikipedia" ≠ "generated" := by
  refine ⟨rfl, rfl, rfl, by decide⟩

/-- Witness for C9 (amended): with the Hugging Face credential configured
and its attempt succeeding, the record's tag is `huggingface`, matching the
spec contract. -/
theorem claim_C9_amended_witness :
    ((Q3.process_animation_request
        { envNoKeys with hf_api_key := some "key", hfResult := some "a.mp4" }
        true true [] [] sampleRequest).1).model_used =
      Q3.specWinningTag
        { envNoKeys with hf_api_key := some "key", hfResult := some "a.mp4" } :=
  claim_C9_amended
    { envNoKeys with hf_api_key := some "key", hfResult := some "a.mp4" }
    true true [] [] sampleRequest rfl
